import Mathlib

/-!
Shallow embedding of the GodotJS `Environment` core (src/bridge/jsb_environment.cpp):
the object binding registry (`bind_pointer`, `reference_object`, `free_object`,
`mark_as_persistent_object`), the call bridge (`_call`), module loading
(`_load_module`) and cross-binding (`crossbind` / `_rebind`).

Hash maps (`objects_index_`, `persistent_objects_`) and the sparse id array
(`objects_`) are embedded as association lists keyed by `Nat` ids / addresses.
Debug assertions (`jsb_check` / `jsb_checkf`) are embedded as `Option` failure
(`none` = assertion violated / undefined behaviour).  Engine-side actions that
the registry triggers (SetWeak, ClearWeak, finalizer invocation, clearing the
internal field) are recorded as an explicit effect trace.
-/

namespace GodotJS

/-- Association-list lookup: the first entry whose key equals `k`
(embeds `HashMap::getptr` / `find`). -/
def alookup {κ β : Type} [DecidableEq κ] (k : κ) : List (κ × β) → Option β
  | [] => none
  | (k0, v) :: rest => if k = k0 then some v else alookup k rest

/-- Association-list erase: removes the first entry with key `k`
(embeds `HashMap::erase`). -/
def aerase {κ β : Type} [DecidableEq κ] (k : κ) : List (κ × β) → List (κ × β)
  | [] => []
  | (k0, v) :: rest => if k = k0 then rest else (k0, v) :: aerase k rest

/-- Association-list in-place update of the value stored at key `k`
(embeds mutating the value object returned by `get_value`). -/
def areplace {κ β : Type} [DecidableEq κ] (k : κ) (v : β) (l : List (κ × β)) :
    List (κ × β) :=
  l.map (fun kv => if kv.1 = k then (kv.1, v) else kv)

/-! ## Object binding registry (Environment::bind_pointer / reference_object / free_object) -/

/-- Host addresses (`void*`) are embedded as natural numbers. -/
abbrev Ptr := Nat

/-- Object ids (`internal::Index64` handed out by `objects_.add`) as naturals. -/
abbrev NativeObjectID := Nat

/-- `EBindingPolicy::Type` from the source: `Managed` (engine owns lifetime,
starts weak) or `External` (host owns lifetime, starts strong with count 1). -/
inductive EBindingPolicy
  | Managed
  | External
deriving DecidableEq, Repr

/-- Discriminator of `NativeClassType`: `bind_pointer` and `reference_object`
assert the class is not `GodotPrimitive` (a value type). -/
inductive NativeClassType
  | GodotObject
  | GodotPrimitive
deriving DecidableEq, Repr

/-- The slice of `NativeClassInfo` the registry operations consult. -/
structure NativeClassInfo where
  ctype : NativeClassType
deriving DecidableEq, Repr

/-- `Environment::ObjectHandle`: class id, reference count, whether the script
handle is currently weak (`SetWeak` has been called and not `ClearWeak`-ed), and
the (debug-only) bound address mirror. -/
structure ObjectHandle where
  class_id : Nat
  ref_count : Nat
  ref_weak : Bool
  pointer : Ptr
deriving DecidableEq, Repr

/-- The registry state inside `Environment`: the id → handle table `objects_`,
the pointer → id map `objects_index_`, the persistent-object set
`persistent_objects_`, the (immutable) native class table `native_classes_`,
and the id allocation counter of `objects_.add`. -/
structure Registry where
  native_classes : List (Nat × NativeClassInfo)
  objects : List (NativeObjectID × ObjectHandle)
  objects_index : List (Ptr × NativeObjectID)
  persistent_objects : List Ptr
  next_id : Nat
deriving DecidableEq, Repr

/-- Engine-side actions performed by registry operations, recorded as a trace:
`ClearWeak` / `SetWeak` on the script handle, invoking the class finalizer
(`class_info.finalizer(this, p_pointer, is_persistent)`), and clearing the
script object's internal pointer field. -/
inductive Effect
  | clearWeak (ptr : Ptr)
  | setWeak (ptr : Ptr)
  | finalizer (class_id : Nat) (ptr : Ptr) (is_persistent : Bool)
  | clearInternalField (ptr : Ptr)
deriving DecidableEq, Repr

/-- The registry after the handle stored at id `oid` is replaced in place by
`h1` (the effect of mutating through `objects_.get_value`). -/
def with_handle (s : Registry) (oid : NativeObjectID) (h1 : ObjectHandle) :
    Registry :=
  { s with objects := areplace oid h1 s.objects }

/-- The registry right after `free_object` detached address `ptr` (bound at id
`oid`): the index entry, the persistent mark and the handle are gone.  This is
the state any class finalizer invoked by `free_object` observes. -/
def detach_object (s : Registry) (ptr : Ptr) (oid : NativeObjectID) : Registry :=
  { s with
    persistent_objects := s.persistent_objects.erase ptr
    objects_index := aerase ptr s.objects_index
    objects := aerase oid s.objects }

/-- `Environment::bind_pointer` (jsb_environment.cpp:512-544).  Returns `none`
when a debug assertion fires (`bad class_id`, `duplicated bindings`, value-type
class); otherwise the fresh object id and the updated registry.  A `Managed`
binding starts weak with count 0 (`SetWeak` is called on its handle); an
`External` binding starts strong with count 1. -/
def bind_pointer (s : Registry) (p_class_id : Nat) (p_pointer : Ptr)
    (p_policy : EBindingPolicy) : Option (NativeObjectID × Registry) :=
  match alookup p_class_id s.native_classes with
  | none => none
  | some class_info =>
    match alookup p_pointer s.objects_index with
    | some _ => none  -- jsb_checkf(!objects_index_.has(p_pointer), "duplicated bindings")
    | none =>
      if class_info.ctype = NativeClassType.GodotPrimitive then none
      else
      let object_id := s.next_id
      let handle : ObjectHandle :=
        { class_id := p_class_id
          ref_count := if p_policy = EBindingPolicy.External then 1 else 0
          ref_weak := decide (p_policy = EBindingPolicy.Managed)
          pointer := p_pointer }
      some (object_id,
        { s with
          objects := (object_id, handle) :: s.objects
          objects_index := (p_pointer, object_id) :: s.objects_index
          next_id := s.next_id + 1 })

/-- `Environment::reference_object` (jsb_environment.cpp:558-601).  Result is
`(return value, effect trace, new registry)`; `none` when a debug assertion
fires (unknown object id, value-type class, decrement at count 0, dead value).
An unknown pointer returns `true` without touching state; every other path
returns `false`. -/
def reference_object (s : Registry) (p_pointer : Ptr) (p_is_inc : Bool) :
    Option (Bool × List Effect × Registry) :=
  match alookup p_pointer s.objects_index with
  | none => some (true, [], s)
  | some object_id =>
    match alookup object_id s.objects with
    | none => none
    | some handle =>
      match alookup handle.class_id s.native_classes with
      | none => none
      | some class_info =>
        if class_info.ctype = NativeClassType.GodotPrimitive then none
        else if p_is_inc then
          if handle.ref_count = 0 then
            -- becomes a strong reference: ClearWeak, then ++ref_count_
            let h1 := { handle with ref_weak := false, ref_count := 1 }
            some (false, [Effect.clearWeak p_pointer], with_handle s object_id h1)
          else
            let h1 := { handle with ref_count := handle.ref_count + 1 }
            some (false, [], with_handle s object_id h1)
        else
          if handle.ref_count = 0 then none  -- jsb_check(ref_count_ > 0)
          else if handle.ref_count = 1 then
            -- drops to zero: SetWeak, hand the object back to the engine GC
            let h1 := { handle with ref_count := 0, ref_weak := true }
            some (false, [Effect.setWeak p_pointer], with_handle s object_id h1)
          else
            let h1 := { handle with ref_count := handle.ref_count - 1 }
            some (false, [], with_handle s object_id h1)

/-- `Environment::free_object` (jsb_environment.cpp:610-670).  Result is
`(registry after detaching, effect trace)`; `none` when a debug assertion fires
(index entry pointing at a missing handle, or a handle bound to a different
address).  An unknown pointer is a no-op.  The pointer → id entry, the
persistent mark and the id → handle entry are all removed BEFORE the class
finalizer effect is emitted: the returned registry is exactly the state the
finalizer (and any reentrant call made from inside it) observes. -/
def free_object (s : Registry) (p_pointer : Ptr) (p_finalize : Bool) :
    Option (Registry × List Effect) :=
  match alookup p_pointer s.objects_index with
  | none => some (s, [])
  | some object_id =>
    match alookup object_id s.objects with
    | none => none
    | some handle =>
      if handle.pointer ≠ p_pointer then none  -- debug: handle/pointer mismatch
      else
        let is_persistent := decide (p_pointer ∈ s.persistent_objects)
        let detached : Registry := detach_object s p_pointer object_id
        if p_finalize then
          some (detached, [Effect.finalizer handle.class_id p_pointer is_persistent])
        else
          some (detached, [Effect.clearInternalField p_pointer])

/-- `Environment::mark_as_persistent_object` (jsb_environment.cpp:546-556):
on a bound, non-persistent pointer, one extra `reference_object(ptr, true)` and
insertion into the persistent set; unknown pointers are a logged no-op. -/
def mark_as_persistent_object (s : Registry) (p_pointer : Ptr) :
    Option (Registry × List Effect) :=
  match alookup p_pointer s.objects_index with
  | none => some (s, [])
  | some _ =>
    if p_pointer ∈ s.persistent_objects then none  -- debug: duplicate persistent
    else
      match reference_object s p_pointer true with
      | none => none
      | some (_, effects, s1) =>
        some ({ s1 with persistent_objects := p_pointer :: s1.persistent_objects },
          effects)

/-! ## Operation sequences over the registry -/

/-- The registry operations a host/engine interleaving can perform. -/
inductive Op
  | bind (class_id : Nat) (ptr : Ptr) (policy : EBindingPolicy)
  | reference (ptr : Ptr) (is_inc : Bool)
  | free (ptr : Ptr) (finalize : Bool)
deriving DecidableEq, Repr

/-- One registry operation, keeping only the state (`none` = a debug assertion
fired, i.e. the sequence is invalid). -/
def execStep (s : Registry) : Op → Option Registry
  | Op.bind cid ptr pol => (bind_pointer s cid ptr pol).map Prod.snd
  | Op.reference ptr inc => (reference_object s ptr inc).map (fun r => r.2.2)
  | Op.free ptr fin => (free_object s ptr fin).map Prod.fst

/-- Run a sequence of registry operations. -/
def execOps (s : Registry) : List Op → Option Registry
  | [] => some s
  | op :: rest =>
    match execStep s op with
    | none => none
    | some s1 => execOps s1 rest

/-- A freshly constructed `Environment`: empty registry over a fixed native
class table. -/
def initRegistry (classes : List (Nat × NativeClassInfo)) : Registry :=
  { native_classes := classes
    objects := []
    objects_index := []
    persistent_objects := []
    next_id := 0 }

/-- The registry representation invariant: `objects_` and `objects_index_`
have equal size, keys on both sides are unique, every index entry points to a
live handle recording that very address, and all live ids were allocated below
the id counter. -/
structure RegInv (s : Registry) : Prop where
  size_eq : s.objects.length = s.objects_index.length
  objects_nodup : (s.objects.map Prod.fst).Nodup
  index_nodup : (s.objects_index.map Prod.fst).Nodup
  index_to_handle : ∀ p oid, alookup p s.objects_index = some oid →
    ∃ h, alookup oid s.objects = some h ∧ h.pointer = p
  ids_lt : ∀ oid ∈ s.objects.map Prod.fst, oid < s.next_id

/-- Native class table used by concrete witness states: one ordinary object
class with id 0. -/
def sampleClasses : List (Nat × NativeClassInfo) :=
  [(0, { ctype := NativeClassType.GodotObject })]

/-- A registry in which host address 7 is bound with the `External` policy
(strong handle, reference count 1) at object id 0. -/
def sampleExternal : Registry :=
  { native_classes := sampleClasses
    objects := [(0, { class_id := 0, ref_count := 1, ref_weak := false, pointer := 7 })]
    objects_index := [(7, 0)]
    persistent_objects := []
    next_id := 1 }

/-- A registry in which host address 7 is bound with the `Managed` policy
(weak handle, reference count 0) at object id 0. -/
def sampleManaged : Registry :=
  { native_classes := sampleClasses
    objects := [(0, { class_id := 0, ref_count := 0, ref_weak := true, pointer := 7 })]
    objects_index := [(7, 0)]
    persistent_objects := []
    next_id := 1 }

/-- The registry after the single binding of `sampleExternal` /
`sampleManaged` has been freed. -/
def sampleEmptied : Registry :=
  { native_classes := sampleClasses
    objects := []
    objects_index := []
    persistent_objects := []
    next_id := 1 }

/-! ## Call bridge (Environment::_call, jsb_environment.cpp:1158-1206) -/

/-- Host values (`Variant`) are embedded as opaque naturals. -/
abbrev Variant := Nat

/-- Script values (`v8::Local<v8::Value>`) are embedded as opaque naturals. -/
abbrev ScriptVal := Nat

/-- Outcome of `p_func->Call` under the scoped `TryCatch`:
an exception was thrown and caught, an empty `MaybeLocal`, or a value. -/
inductive CallOutcome
  | threw
  | empty
  | value (v : ScriptVal)
deriving DecidableEq, Repr

/-- The engine collaborators `_call` uses, as oracles: `TypeConvert::gd_var_to_js`,
the function invocation, `TypeConvert::js_to_gd_var`, and `Value::IsPromise`. -/
structure CallEnv where
  gd_var_to_js : Variant → Option ScriptVal
  invoke : List ScriptVal → CallOutcome
  js_to_gd_var : ScriptVal → Option Variant
  isPromise : ScriptVal → Bool

/-- The slice of `Callable::CallError` codes relevant to `_call`:
`CALL_OK`, `CALL_ERROR_INVALID_METHOD`, `CALL_ERROR_INVALID_ARGUMENT`.
The source only ever assigns `CALL_ERROR_INVALID_METHOD`. -/
inductive CallError
  | ok
  | invalid_method
  | invalid_argument
deriving DecidableEq, Repr

/-- Observable outcome of `_call`: the returned `Variant` (`none` = `return {}`),
the reported error code, whether `p_func->Call` happened, how many script-side
argument temporaries were placement-constructed and destructed, whether an
error message was logged, and whether a script exception was caught. -/
structure CallResult where
  ret : Option Variant
  err : CallError
  invoked : Bool
  constructed : Nat
  destroyed : Nat
  logged : Bool
  caught : Bool
deriving DecidableEq, Repr

/-- The argument conversion loop of `_call`: returns the converted argument
vector, or the index at which `gd_var_to_js` first failed. -/
def convertArgsAux (env : CallEnv) : List Variant → Nat → Except Nat (List ScriptVal)
  | [], _ => Except.ok []
  | a :: rest, i =>
    match env.gd_var_to_js a with
    | none => Except.error i
    | some v =>
      match convertArgsAux env rest (i + 1) with
      | Except.error j => Except.error j
      | Except.ok vs => Except.ok (v :: vs)

/-- Argument conversion starting at index 0. -/
def convertArgs (env : CallEnv) (args : List Variant) : Except Nat (List ScriptVal) :=
  convertArgsAux env args 0

/-- `Environment::_call` (jsb_environment.cpp:1158-1206).  Converts each
argument (on first failure destroys the `index + 1` placement-constructed
temporaries and reports `CALL_ERROR_INVALID_METHOD` without invoking the
function); invokes the function under a scoped `TryCatch` (a caught exception
is logged and reported as `CALL_ERROR_INVALID_METHOD` with empty return); an
empty result returns no value and no error; a result failing `js_to_gd_var`
returns no value — silently when it is a `Promise`, as a logged
`CALL_ERROR_INVALID_METHOD` otherwise. -/
def _call (env : CallEnv) (p_args : List Variant) : CallResult :=
  match convertArgs env p_args with
  | Except.error i =>
    { ret := none, err := CallError.invalid_method, invoked := false
      constructed := i + 1, destroyed := i + 1, logged := false, caught := false }
  | Except.ok argv =>
    let n := p_args.length
    match env.invoke argv with
    | CallOutcome.threw =>
      { ret := none, err := CallError.invalid_method, invoked := true
        constructed := n, destroyed := n, logged := true, caught := true }
    | CallOutcome.empty =>
      { ret := none, err := CallError.ok, invoked := true
        constructed := n, destroyed := n, logged := false, caught := false }
    | CallOutcome.value v =>
      match env.js_to_gd_var v with
      | some rvar =>
        { ret := some rvar, err := CallError.ok, invoked := true
          constructed := n, destroyed := n, logged := false, caught := false }
      | none =>
        if env.isPromise v then
          { ret := none, err := CallError.ok, invoked := true
            constructed := n, destroyed := n, logged := false, caught := false }
        else
          { ret := none, err := CallError.invalid_method, invoked := true
            constructed := n, destroyed := n, logged := true, caught := false }

/-- A call environment whose argument conversion always fails (counterexample
input for the argument-failure path). -/
def failArgEnv : CallEnv :=
  { gd_var_to_js := fun _ => none
    invoke := fun _ => CallOutcome.empty
    js_to_gd_var := fun _ => none
    isPromise := fun _ => false }

/-- A call environment whose invocation always throws a script exception. -/
def throwEnv : CallEnv :=
  { gd_var_to_js := fun v => some v
    invoke := fun _ => CallOutcome.threw
    js_to_gd_var := fun v => some v
    isPromise := fun _ => false }

/-- A call environment returning a value (42) that fails host conversion and
is a pending `Promise`. -/
def promiseEnv : CallEnv :=
  { gd_var_to_js := fun v => some v
    invoke := fun _ => CallOutcome.value 42
    js_to_gd_var := fun _ => none
    isPromise := fun v => v = 42 }

/-- A call environment returning a non-`Promise` value (7) that fails host
conversion. -/
def badReturnEnv : CallEnv :=
  { gd_var_to_js := fun v => some v
    invoke := fun _ => CallOutcome.value 7
    js_to_gd_var := fun _ => none
    isPromise := fun _ => false }

/-! ## Module cache and _load_module (jsb_environment.cpp:742-875) -/

/-- Module ids are resolved, normalized path-like strings. -/
abbrev ModuleId := String

/-- Modelled from the spec: `JavaScriptModule` (declared outside src/) — a
loaded unit of script source with identity (resolved path), a loaded flag, a
reload-requested flag, and the identity of its script-side module object
(identity is preserved across reloads, so it stands in for pointer
identity). -/
structure JavaScriptModule where
  id : ModuleId
  loaded : Bool
  reload_requested : Bool
  obj_identity : Nat
deriving DecidableEq, Repr

/-- Modelled from the spec: `JavaScriptModule::is_loaded` (declared outside
src/) — a module counts as loaded once `on_load` ran and no reload has been
requested since (reload-requested modules must fall through the early-return
of `_load_module` into the reload branch). -/
def JavaScriptModule.is_loaded (m : JavaScriptModule) : Bool :=
  m.loaded && !m.reload_requested

/-- Modelled from the spec: the module cache `module_cache_` (declared outside
src/) — resolved id → module, plus an allocation counter for script-side
module-object identities. -/
structure ModuleCache where
  modules_ : List (ModuleId × JavaScriptModule)
  next_obj : Nat
deriving DecidableEq, Repr

/-- Modelled from the spec: `JavaScriptModuleCache::insert` (declared outside
src/) — creates a not-yet-loaded module entry with a fresh module object. -/
def cache_insert (st : ModuleCache) (id : ModuleId) :
    JavaScriptModule × ModuleCache :=
  let m : JavaScriptModule :=
    { id := id, loaded := false, reload_requested := false, obj_identity := st.next_obj }
  (m, { modules_ := (id, m) :: st.modules_, next_obj := st.next_obj + 1 })

/-- Updating a module entry in place (modules are stored by pointer in the
source, so mutation through the pointer is visible in the cache). -/
def cache_update (st : ModuleCache) (id : ModuleId) (m : JavaScriptModule) :
    ModuleCache :=
  { st with modules_ := areplace id m st.modules_ }

/-- Modelled from the spec: the loader / resolver collaborators
(`IModuleLoader`, `IModuleResolver`, `internal::PathUtil`, all declared
outside src/) provided as oracles: whether a named virtual loader exists for
an id, whether its `load` succeeds, the combine+extract normalization of a
relative id against the requester's directory (`none` = bad path), the
resolver chain lookup (normalized id → resolved source filepath), and whether
the resolver's `load` succeeds. -/
structure ModuleOracle where
  find_module_loader : ModuleId → Bool
  loader_load_ok : ModuleId → Bool
  path_combine_extract : ModuleId → ModuleId → Option ModuleId
  find_module_resolver : ModuleId → Option ModuleId
  resolver_load_ok : ModuleId → Bool

/-- Script-side effects of `_load_module` worth observing: a named loader's
`load` ran, a resolver's `load` ran, or an error was thrown. -/
inductive LoadEffect
  | loaderLoad (id : ModuleId)
  | resolverLoad (id : ModuleId)
  | throwError (msg : String)
deriving DecidableEq, Repr

/-- The resolver half of `Environment::_load_module`
(jsb_environment.cpp:771-874): normalize relative ids, consult the resolver
chain, then reload in place / instantiate a fresh module. -/
def _load_module_resolve (env : ModuleOracle) (st : ModuleCache)
    (p_parent_id p_module_id : ModuleId) :
    Option (Option JavaScriptModule × ModuleCache × List LoadEffect) :=
  let normalized : Option ModuleId :=
    if p_module_id.startsWith "./" || p_module_id.startsWith "../" then
      env.path_combine_extract p_parent_id p_module_id
    else some p_module_id
  match normalized with
  | none => some (none, st, [LoadEffect.throwError "bad path"])
  | some normalized_id =>
    match env.find_module_resolver normalized_id with
    | none =>
      some (none, st, [LoadEffect.throwError ("unknown module: " ++ normalized_id)])
    | some module_id =>
      -- check again with the resolved module_id
      match alookup module_id st.modules_ with
      | some existing_module =>
        if existing_module.is_loaded then some (some existing_module, st, [])
        else
          -- reload in place: same identity object, reload_requested cleared
          let m1 := { existing_module with reload_requested := false }
          let st1 := cache_update st module_id m1
          if env.resolver_load_ok module_id then
            some (some m1, st1, [LoadEffect.resolverLoad module_id])
          else
            some (none, st1, [LoadEffect.resolverLoad module_id])
      | none =>
        let r := cache_insert st module_id
        if env.resolver_load_ok module_id then
          let m1 := { r.1 with loaded := true }  -- module.on_load
          some (some m1, cache_update r.2 module_id m1,
            [LoadEffect.resolverLoad module_id])
        else
          some (none, r.2, [LoadEffect.resolverLoad module_id])

/-- `Environment::_load_module` (jsb_environment.cpp:742-875).  An existing
loaded module for the requested id is returned unchanged; named virtual
loaders are tried next (reloading one fails the "module loader does not
support reloading" assertion, embedded as `none`); otherwise the id is
resolved and loaded through the resolver chain. -/
def _load_module (env : ModuleOracle) (st : ModuleCache)
    (p_parent_id p_module_id : ModuleId) :
    Option (Option JavaScriptModule × ModuleCache × List LoadEffect) :=
  match alookup p_module_id st.modules_ with
  | some existing_module =>
    if existing_module.is_loaded then some (some existing_module, st, [])
    else if env.find_module_loader p_module_id then
      none  -- jsb_checkf(!existing_module, "module loader does not support reloading")
    else _load_module_resolve env st p_parent_id p_module_id
  | none =>
    if env.find_module_loader p_module_id then
      let r := cache_insert st p_module_id
      if env.loader_load_ok p_module_id then
        let m1 := { r.1 with loaded := true }  -- module.on_load
        some (some m1, cache_update r.2 p_module_id m1,
          [LoadEffect.loaderLoad p_module_id])
      else
        some (none, r.2, [LoadEffect.loaderLoad p_module_id])
    else _load_module_resolve env st p_parent_id p_module_id

/-- Concrete module oracle for witnesses: no named loaders, identity
resolution, loads succeed. -/
def sampleOracle : ModuleOracle :=
  { find_module_loader := fun _ => false
    loader_load_ok := fun _ => false
    path_combine_extract := fun _ _ => none
    find_module_resolver := fun id => some id
    resolver_load_ok := fun _ => true }

/-- Concrete loaded module for witnesses. -/
def sampleModuleA : JavaScriptModule :=
  { id := "res://a.js", loaded := true, reload_requested := false, obj_identity := 0 }

/-- Concrete module cache holding one loaded module "res://a.js". -/
def sampleCache : ModuleCache :=
  { modules_ := [("res://a.js", sampleModuleA)], next_obj := 1 }

/-! ## Cross-binding (Environment::crossbind / _rebind / bind_godot_object) -/

/-- Outcome of `class_obj->CallAsConstructor(context, 1, CrossBind)` under the
scoped `TryCatch`: an exception was caught, the result was empty or not an
object, or a proper object instance was produced. -/
inductive CtorOutcome
  | threw
  | nonObject
  | objectOk
deriving DecidableEq, Repr

/-- The slice of `ScriptClassInfo` that `crossbind` consults. -/
structure ScriptClassInfo where
  native_class_id : Nat
deriving DecidableEq, Repr

/-- The engine/host collaborators of `crossbind`, as oracles: the constructor
outcome, whether the host object is ref-counted, and whether `init_ref`
succeeds. -/
structure CrossbindEnv where
  ctor : CtorOutcome
  is_ref_counted : Bool
  init_ref_ok : Bool
deriving DecidableEq, Repr

/-- Script/host-side effects of `crossbind`: the class constructor ran with
the `CrossBind` sentinel, `_rebind` replaced the prototype of the existing
script object, or `init_ref` was called on the host object. -/
inductive CbEffect
  | construct
  | setPrototype (ptr : Ptr)
  | initRef (ptr : Ptr)
deriving DecidableEq, Repr

/-- `Environment::bind_godot_object` (jsb_environment.cpp:494-510): for a
ref-counted host object, `init_ref` first (a dead object fails with no
binding); then `bind_pointer` with the `External` policy. -/
def bind_godot_object (env : CrossbindEnv) (s : Registry) (p_class_id : Nat)
    (p_pointer : Ptr) :
    Option (Option NativeObjectID × Registry × List CbEffect) :=
  if env.is_ref_counted && !env.init_ref_ok then
    some (none, s, [CbEffect.initRef p_pointer])
  else
    let effs := if env.is_ref_counted then [CbEffect.initRef p_pointer] else []
    match bind_pointer s p_class_id p_pointer EBindingPolicy.External with
    | none => none
    | some (oid, s1) => some (some oid, s1, effs)

/-- `Environment::crossbind` (jsb_environment.cpp:877-926) with `_rebind`
(940-965) inlined: a host object that already has a binding is rebound (only
the prototype of its script object is replaced; no construction; same id); an
unbound one gets a fresh instance via the class constructor with the
`CrossBind` sentinel — on a caught construction exception or a non-object
result, no binding at all; otherwise `bind_godot_object` with `External`. -/
def crossbind (env : CrossbindEnv) (s : Registry) (p_this : Ptr)
    (class_info : ScriptClassInfo) :
    Option (Option NativeObjectID × Registry × List CbEffect) :=
  match alookup p_this s.objects_index with
  | some object_id =>
    some (some object_id, s, [CbEffect.setPrototype p_this])
  | none =>
    match env.ctor with
    | CtorOutcome.threw => some (none, s, [CbEffect.construct])
    | CtorOutcome.nonObject => some (none, s, [CbEffect.construct])
    | CtorOutcome.objectOk =>
      match bind_godot_object env s class_info.native_class_id p_this with
      | none => none
      | some (oid, s1, effs) => some (oid, s1, CbEffect.construct :: effs)

/-- The registry produced by `bind_pointer` with the `External` policy on an
unbound address: fresh id, strong handle with count 1. -/
def bound_external (s : Registry) (cid : Nat) (ptr : Ptr) : Registry :=
  { s with
    objects :=
      (s.next_id, { class_id := cid, ref_count := 1, ref_weak := false, pointer := ptr }) :: s.objects
    objects_index := (ptr, s.next_id) :: s.objects_index
    next_id := s.next_id + 1 }

/-- Concrete crossbind environment for witnesses: constructor succeeds on a
non-ref-counted host object. -/
def sampleCbEnv : CrossbindEnv :=
  { ctor := CtorOutcome.objectOk, is_ref_counted := false, init_ref_ok := true }

/-! ## Theorems: association-list helper lemmas -/

@[simp] theorem alookup_nil {κ β : Type} [DecidableEq κ] (k : κ) :
    alookup (β := β) k [] = none := rfl

@[simp] theorem alookup_cons {κ β : Type} [DecidableEq κ] (k k0 : κ) (v : β)
    (rest : List (κ × β)) :
    alookup k ((k0, v) :: rest) = if k = k0 then some v else alookup k rest := rfl

theorem alookup_mem_keys {κ β : Type} [DecidableEq κ] {k : κ} {v : β}
    {l : List (κ × β)} (h : alookup k l = some v) : k ∈ l.map Prod.fst := by
  induction l with
  | nil => simp [alookup] at h
  | cons kv rest ih =>
    obtain ⟨k0, v0⟩ := kv
    by_cases hk : k = k0
    · simp [hk]
    · simp [alookup, hk] at h
      simp [List.mem_cons, ih h]

theorem alookup_eq_none_of_not_mem {κ β : Type} [DecidableEq κ] {k : κ}
    {l : List (κ × β)} (h : k ∉ l.map Prod.fst) : alookup k l = none := by
  induction l with
  | nil => rfl
  | cons kv rest ih =>
    obtain ⟨k0, v0⟩ := kv
    simp only [List.map_cons, List.mem_cons] at h
    push_neg at h
    simp [alookup, h.1, ih h.2]

@[simp] theorem areplace_nil {κ β : Type} [DecidableEq κ] (k : κ) (v : β) :
    areplace k v ([] : List (κ × β)) = [] := rfl

theorem areplace_cons {κ β : Type} [DecidableEq κ] (k k0 : κ) (v v0 : β)
    (rest : List (κ × β)) :
    areplace k v ((k0, v0) :: rest)
      = (if k0 = k then (k0, v) else (k0, v0)) :: areplace k v rest := by
  by_cases hk : k0 = k <;> simp [areplace, hk]

@[simp] theorem aerase_nil {κ β : Type} [DecidableEq κ] (k : κ) :
    aerase k ([] : List (κ × β)) = [] := rfl

theorem aerase_cons {κ β : Type} [DecidableEq κ] (k k0 : κ) (v0 : β)
    (rest : List (κ × β)) :
    aerase k ((k0, v0) :: rest)
      = if k = k0 then rest else (k0, v0) :: aerase k rest := rfl

theorem alookup_areplace {κ β : Type} [DecidableEq κ] (k j : κ) (v : β)
    (l : List (κ × β)) :
    alookup j (areplace k v l)
      = (alookup j l).map (fun w => if j = k then v else w) := by
  induction l with
  | nil => simp
  | cons kv rest ih =>
    obtain ⟨k0, v0⟩ := kv
    rw [areplace_cons]
    by_cases hk0 : k0 = k
    · subst hk0
      by_cases hj : j = k0 <;> simp [alookup_cons, hj, ih]
    · by_cases hj : j = k0
      · subst hj
        simp [alookup_cons, hk0, Ne.symm hk0]
      · simp [alookup_cons, hk0, hj, ih]

theorem alookup_aerase_ne {κ β : Type} [DecidableEq κ] {k j : κ}
    (l : List (κ × β)) (h : j ≠ k) :
    alookup j (aerase k l) = alookup j l := by
  induction l with
  | nil => rfl
  | cons kv rest ih =>
    obtain ⟨k0, v0⟩ := kv
    rw [aerase_cons]
    by_cases hk : k = k0
    · subst hk
      simp [alookup_cons, h]
    · by_cases hj : j = k0
      · subst hj
        simp [alookup_cons, hk]
      · simp [alookup_cons, hk, hj, ih]

theorem alookup_aerase_self {κ β : Type} [DecidableEq κ] {k : κ}
    {l : List (κ × β)} (h : (l.map Prod.fst).Nodup) :
    alookup k (aerase k l) = none := by
  induction l with
  | nil => rfl
  | cons kv rest ih =>
    obtain ⟨k0, v0⟩ := kv
    simp only [List.map_cons, List.nodup_cons] at h
    rw [aerase_cons]
    by_cases hk : k = k0
    · subst hk
      rw [if_pos rfl]
      exact alookup_eq_none_of_not_mem h.1
    · simp [alookup_cons, hk, ih h.2]

theorem aerase_length_of_mem {κ β : Type} [DecidableEq κ] {k : κ}
    {l : List (κ × β)} (h : k ∈ l.map Prod.fst) :
    (aerase k l).length + 1 = l.length := by
  induction l with
  | nil => simp at h
  | cons kv rest ih =>
    obtain ⟨k0, v0⟩ := kv
    rw [aerase_cons]
    by_cases hk : k = k0
    · simp [hk]
    · simp only [List.map_cons, List.mem_cons] at h
      rcases h with h | h
      · exact absurd h hk
      · simp only [if_neg hk, List.length_cons, ih h]

theorem aerase_keys_sublist {κ β : Type} [DecidableEq κ] (k : κ)
    (l : List (κ × β)) :
    ((aerase k l).map Prod.fst).Sublist (l.map Prod.fst) := by
  induction l with
  | nil => simp
  | cons kv rest ih =>
    obtain ⟨k0, v0⟩ := kv
    rw [aerase_cons]
    by_cases hk : k = k0
    · simp only [if_pos hk, List.map_cons]
      exact List.sublist_cons_self _ _
    · simp only [if_neg hk, List.map_cons]
      exact ih.cons₂ k0

theorem areplace_keys {κ β : Type} [DecidableEq κ] (k : κ) (v : β)
    (l : List (κ × β)) :
    (areplace k v l).map Prod.fst = l.map Prod.fst := by
  induction l with
  | nil => rfl
  | cons kv rest ih =>
    obtain ⟨k0, v0⟩ := kv
    rw [areplace_cons]
    by_cases hk : k0 = k <;> simp [hk, ih]

@[simp] theorem areplace_length {κ β : Type} [DecidableEq κ] (k : κ) (v : β)
    (l : List (κ × β)) : (areplace k v l).length = l.length := by
  simp [areplace]


/-! ## Theorems: registry invariant preservation -/

theorem alookup_isSome_of_mem_keys {κ β : Type} [DecidableEq κ] {k : κ}
    {l : List (κ × β)} (h : k ∈ l.map Prod.fst) : (alookup k l).isSome := by
  induction l with
  | nil => simp at h
  | cons kv rest ih =>
    obtain ⟨k0, v0⟩ := kv
    by_cases hk : k = k0
    · simp [alookup_cons, hk]
    · simp only [List.map_cons, List.mem_cons] at h
      rcases h with h | h
      · exact absurd h hk
      · simp [alookup_cons, hk, ih h]

theorem RegInv.init (classes : List (Nat × NativeClassInfo)) :
    RegInv (initRegistry classes) := by
  refine ⟨rfl, ?_, ?_, ?_, ?_⟩ <;> simp [initRegistry]

theorem bind_pointer_inv {s : Registry} {cid : Nat} {ptr : Ptr}
    {pol : EBindingPolicy} {oid : NativeObjectID} {s' : Registry}
    (hinv : RegInv s) (h : bind_pointer s cid ptr pol = some (oid, s')) :
    RegInv s' := by
  unfold bind_pointer at h
  cases hcls : alookup cid s.native_classes with
  | none => simp only [hcls] at h; exact Option.noConfusion h
  | some ci =>
    simp only [hcls] at h
    cases hidx : alookup ptr s.objects_index with
    | some j => simp only [hidx] at h; exact Option.noConfusion h
    | none =>
      simp only [hidx] at h
      by_cases hprim : ci.ctype = NativeClassType.GodotPrimitive
      · simp only [if_pos hprim] at h; exact Option.noConfusion h
      · simp only [if_neg hprim, Option.some.injEq, Prod.mk.injEq] at h
        obtain ⟨hoid, hs⟩ := h
        subst hs
        have hfresh : s.next_id ∉ s.objects.map Prod.fst := by
          intro hmem
          exact absurd (hinv.ids_lt _ hmem) (lt_irrefl _)
        have hptr : ptr ∉ s.objects_index.map Prod.fst := by
          intro hmem
          have hsome := alookup_isSome_of_mem_keys hmem
          rw [hidx] at hsome
          exact Bool.noConfusion hsome
        refine ⟨?_, ?_, ?_, ?_, ?_⟩
        · simpa using hinv.size_eq
        · simp only [List.map_cons, List.nodup_cons]
          exact ⟨hfresh, hinv.objects_nodup⟩
        · simp only [List.map_cons, List.nodup_cons]
          exact ⟨hptr, hinv.index_nodup⟩
        · intro p oid2 hl
          simp only [alookup_cons] at hl
          by_cases hp : p = ptr
          · subst hp
            rw [if_pos rfl] at hl
            obtain rfl : s.next_id = oid2 := by injection hl
            refine ⟨{ class_id := cid
                      ref_count := if pol = EBindingPolicy.External then 1 else 0
                      ref_weak := decide (pol = EBindingPolicy.Managed)
                      pointer := p }, ?_, rfl⟩
            dsimp only
            rw [alookup_cons, if_pos rfl]
          · rw [if_neg hp] at hl
            obtain ⟨h0, hh0, hp0⟩ := hinv.index_to_handle p oid2 hl
            refine ⟨h0, ?_, hp0⟩
            have hne : oid2 ≠ s.next_id := by
              intro hc
              subst hc
              exact hfresh (alookup_mem_keys hh0)
            dsimp only
            rw [alookup_cons, if_neg hne]
            exact hh0
        · intro oid2 hmem
          simp only [List.map_cons, List.mem_cons] at hmem
          rcases hmem with rfl | hmem
          · exact Nat.lt_succ_self _
          · exact Nat.lt_succ_of_lt (hinv.ids_lt _ hmem)

theorem reference_object_inv {s : Registry} {ptr : Ptr} {inc : Bool}
    {rv : Bool} {es : List Effect} {s' : Registry} (hinv : RegInv s)
    (h : reference_object s ptr inc = some (rv, es, s')) : RegInv s' := by
  unfold reference_object at h
  cases hidx : alookup ptr s.objects_index with
  | none =>
    simp only [hidx, Option.some.injEq, Prod.mk.injEq] at h
    obtain ⟨-, -, rfl⟩ := h
    exact hinv
  | some oid =>
    simp only [hidx] at h
    cases hobj : alookup oid s.objects with
    | none => simp only [hobj] at h; exact Option.noConfusion h
    | some handle =>
      simp only [hobj] at h
      cases hcls : alookup handle.class_id s.native_classes with
      | none => simp only [hcls] at h; exact Option.noConfusion h
      | some ci =>
        simp only [hcls] at h
        by_cases hprim : ci.ctype = NativeClassType.GodotPrimitive
        · simp only [if_pos hprim] at h; exact Option.noConfusion h
        · simp only [if_neg hprim] at h
          -- in every remaining branch, s' replaces the handle stored at oid
          -- (preserving its pointer field) and leaves everything else alone
          have main : ∀ h1 : ObjectHandle, h1.pointer = handle.pointer →
              RegInv { s with objects := areplace oid h1 s.objects } := by
            intro h1 hp1
            refine ⟨?_, ?_, ?_, ?_, ?_⟩
            · simpa using hinv.size_eq
            · rw [areplace_keys]; exact hinv.objects_nodup
            · exact hinv.index_nodup
            · intro p oid2 hl
              obtain ⟨h0, hh0, hp0⟩ := hinv.index_to_handle p oid2 hl
              rw [alookup_areplace]
              by_cases hoe : oid2 = oid
              · subst hoe
                rw [hh0] at hobj
                obtain rfl : h0 = handle := by injection hobj
                refine ⟨h1, ?_, ?_⟩
                · simp [hh0]
                · rw [hp1, hp0]
              · exact ⟨h0, by simp [hh0, hoe], hp0⟩
            · intro oid2 hmem
              rw [areplace_keys] at hmem
              exact hinv.ids_lt _ hmem
          by_cases hincb : inc = true
          · subst hincb
            simp only [if_pos rfl] at h
            by_cases h0 : handle.ref_count = 0
            · simp only [if_pos h0, Option.some.injEq, Prod.mk.injEq] at h
              obtain ⟨-, -, rfl⟩ := h
              exact main _ rfl
            · simp only [if_neg h0, Option.some.injEq, Prod.mk.injEq] at h
              obtain ⟨-, -, rfl⟩ := h
              exact main _ rfl
          · simp only [if_neg hincb] at h
            by_cases h0 : handle.ref_count = 0
            · simp only [if_pos h0] at h; exact Option.noConfusion h
            · simp only [if_neg h0] at h
              by_cases h1c : handle.ref_count = 1
              · simp only [if_pos h1c, Option.some.injEq, Prod.mk.injEq] at h
                obtain ⟨-, -, rfl⟩ := h
                exact main _ rfl
              · simp only [if_neg h1c, Option.some.injEq, Prod.mk.injEq] at h
                obtain ⟨-, -, rfl⟩ := h
                exact main _ rfl

theorem free_object_inv {s : Registry} {ptr : Ptr} {fin : Bool}
    {s' : Registry} {es : List Effect} (hinv : RegInv s)
    (h : free_object s ptr fin = some (s', es)) : RegInv s' := by
  unfold free_object at h
  cases hidx : alookup ptr s.objects_index with
  | none =>
    simp only [hidx, Option.some.injEq, Prod.mk.injEq] at h
    obtain ⟨rfl, -⟩ := h
    exact hinv
  | some oid =>
    simp only [hidx] at h
    cases hobj : alookup oid s.objects with
    | none => simp only [hobj] at h; exact Option.noConfusion h
    | some handle =>
      simp only [hobj] at h
      by_cases hpm : handle.pointer ≠ ptr
      · simp only [if_pos hpm] at h; exact Option.noConfusion h
      · simp only [if_neg hpm] at h
        push_neg at hpm
        have hs : s' = { s with
            persistent_objects := s.persistent_objects.erase ptr
            objects_index := aerase ptr s.objects_index
            objects := aerase oid s.objects } := by
          split at h <;>
          · simp only [Option.some.injEq, Prod.mk.injEq] at h
            exact h.1.symm
        subst hs
        have hptr_mem : ptr ∈ s.objects_index.map Prod.fst :=
          alookup_mem_keys hidx
        have hoid_mem : oid ∈ s.objects.map Prod.fst :=
          alookup_mem_keys hobj
        refine ⟨?_, ?_, ?_, ?_, ?_⟩
        · dsimp only
          have e1 := aerase_length_of_mem (k := oid) hoid_mem
          have e2 := aerase_length_of_mem (k := ptr) hptr_mem
          have := hinv.size_eq
          omega
        · exact hinv.objects_nodup.sublist (aerase_keys_sublist _ _)
        · exact hinv.index_nodup.sublist (aerase_keys_sublist _ _)
        · intro p oid2 hl
          by_cases hp : p = ptr
          · subst hp
            rw [alookup_aerase_self hinv.index_nodup] at hl
            cases hl
          · rw [alookup_aerase_ne _ hp] at hl
            obtain ⟨h0, hh0, hp0⟩ := hinv.index_to_handle p oid2 hl
            have hne : oid2 ≠ oid := by
              intro hc
              subst hc
              rw [hh0] at hobj
              obtain rfl : h0 = handle := by injection hobj
              exact hp (hp0 ▸ hpm ▸ rfl)
            refine ⟨h0, ?_, hp0⟩
            rw [alookup_aerase_ne _ hne]
            exact hh0
        · intro oid2 hmem
          exact hinv.ids_lt _ ((aerase_keys_sublist _ _).subset hmem)

theorem execStep_inv {s s' : Registry} {op : Op} (hinv : RegInv s)
    (h : execStep s op = some s') : RegInv s' := by
  cases op with
  | bind cid ptr pol =>
    simp only [execStep, Option.map_eq_some'] at h
    obtain ⟨⟨oid, s1⟩, hb, hs⟩ := h
    subst hs
    exact bind_pointer_inv hinv hb
  | reference ptr inc =>
    simp only [execStep, Option.map_eq_some'] at h
    obtain ⟨⟨rv, es, s1⟩, hb, hs⟩ := h
    subst hs
    exact reference_object_inv hinv hb
  | free ptr fin =>
    simp only [execStep, Option.map_eq_some'] at h
    obtain ⟨⟨s1, es⟩, hb, hs⟩ := h
    subst hs
    exact free_object_inv hinv hb

theorem execOps_inv {ops : List Op} {s s' : Registry} (hinv : RegInv s)
    (h : execOps s ops = some s') : RegInv s' := by
  induction ops generalizing s with
  | nil =>
    obtain rfl : s = s' := by simpa [execOps] using h
    exact hinv
  | cons op rest ih =>
    unfold execOps at h
    cases hstep : execStep s op with
    | none => rw [hstep] at h; cases h
    | some s1 =>
      rw [hstep] at h
      exact ih (execStep_inv hinv hstep) h

/-- Full characterization of `free_object`'s successful outcomes: either the
pointer was unknown (no-op), or the result is exactly the detached registry
together with the single finalize / clear-internal-field effect. -/
theorem free_object_spec {s : Registry} {ptr : Ptr} {fin : Bool} {s' : Registry}
    {es : List Effect} (h : free_object s ptr fin = some (s', es)) :
    (alookup ptr s.objects_index = none ∧ s' = s ∧ es = []) ∨
    (∃ oid handle, alookup ptr s.objects_index = some oid ∧
      alookup oid s.objects = some handle ∧ handle.pointer = ptr ∧
      s' = detach_object s ptr oid ∧
      es = if fin then
          [Effect.finalizer handle.class_id ptr (decide (ptr ∈ s.persistent_objects))]
        else [Effect.clearInternalField ptr]) := by
  unfold free_object at h
  cases hidx : alookup ptr s.objects_index with
  | none =>
    simp only [hidx, Option.some.injEq, Prod.mk.injEq] at h
    exact Or.inl ⟨rfl, h.1.symm, h.2.symm⟩
  | some oid =>
    simp only [hidx] at h
    cases hobj : alookup oid s.objects with
    | none => simp only [hobj] at h; exact Option.noConfusion h
    | some handle =>
      simp only [hobj] at h
      by_cases hpm : handle.pointer ≠ ptr
      · simp only [if_pos hpm] at h; exact Option.noConfusion h
      · simp only [if_neg hpm] at h
        push_neg at hpm
        refine Or.inr ⟨oid, handle, rfl, hobj, hpm, ?_⟩
        split at h
        · next hfin =>
          simp only [Option.some.injEq, Prod.mk.injEq] at h
          rw [if_pos hfin]
          exact ⟨h.1.symm, h.2.symm⟩
        · next hfin =>
          simp only [Option.some.injEq, Prod.mk.injEq] at h
          rw [if_neg hfin]
          exact ⟨h.1.symm, h.2.symm⟩

/-- On any successful `reference_object`, the returned `Bool` is `true`
exactly when the pointer is unknown to `objects_index_`. -/
theorem reference_object_rv {s : Registry} {ptr : Ptr} {inc rv : Bool}
    {es : List Effect} {s' : Registry}
    (h : reference_object s ptr inc = some (rv, es, s')) :
    (rv = true ↔ alookup ptr s.objects_index = none) := by
  unfold reference_object at h
  cases hidx : alookup ptr s.objects_index with
  | none =>
    simp only [hidx, Option.some.injEq, Prod.mk.injEq] at h
    simp [h.1.symm]
  | some oid =>
    simp only [hidx] at h
    have hrv : rv = false := by
      cases hobj : alookup oid s.objects with
      | none => simp only [hobj] at h; exact Option.noConfusion h
      | some handle =>
        simp only [hobj] at h
        cases hcls : alookup handle.class_id s.native_classes with
        | none => simp only [hcls] at h; exact Option.noConfusion h
        | some ci =>
          simp only [hcls] at h
          repeat' split at h
          all_goals
            first
              | exact Option.noConfusion h
              | (simp only [Option.some.injEq, Prod.mk.injEq] at h
                 exact h.1.symm)
    subst hrv
    simp [hidx]

/-- C1: for every sequence of `bind_pointer` / `reference_object(+1)` /
`reference_object(-1)` / `free_object` operations run from a fresh
`Environment`, the pointer→id map `objects_index_` and the id→handle table
`objects_` have equal size after each operation (every prefix of a valid
sequence is itself a valid sequence, so this covers all intermediate states),
and binding a host address that is still bound fails the "duplicated bindings"
assertion — no address is ever bound twice without an intervening free. -/
theorem C1_registry_size_invariant (classes : List (Nat × NativeClassInfo))
    (ops : List Op) (s : Registry)
    (h : execOps (initRegistry classes) ops = some s) :
    s.objects.length = s.objects_index.length ∧
    (∀ cid pol ptr, (alookup ptr s.objects_index).isSome →
      execStep s (Op.bind cid ptr pol) = none) := by
  have hinv := execOps_inv (RegInv.init classes) h
  refine ⟨hinv.size_eq, ?_⟩
  intro cid pol ptr hsome
  have hb : bind_pointer s cid ptr pol = none := by
    unfold bind_pointer
    cases hcls : alookup cid s.native_classes with
    | none => rfl
    | some ci =>
      cases hidx : alookup ptr s.objects_index with
      | none => rw [hidx] at hsome; exact Bool.noConfusion hsome
      | some j => rfl
  simp [execStep, hb]

/-- Witness for C1 at a concrete run: bind address 7 externally, add and drop
references, free it; sizes agree in the final state. -/
theorem C1_registry_size_invariant_witness :
    sampleEmptied.objects.length = sampleEmptied.objects_index.length :=
  (C1_registry_size_invariant sampleClasses
    [Op.bind 0 7 EBindingPolicy.External, Op.reference 7 true,
     Op.reference 7 false, Op.reference 7 false, Op.free 7 true]
    sampleEmptied (by decide)).1

/-- C2: `free_object` erases the pointer→id mapping before the finalizer
effect is emitted, so in the state the finalizer observes the address is
already unknown, and a second `free_object` on the same pointer — including a
reentrant one from inside the finalizer — finds no mapping and returns as a
no-op, with no state change and no effects. -/
theorem C2_free_object_reentrant (s : Registry) (ptr : Ptr) (fin : Bool)
    (s' : Registry) (es : List Effect) (hinv : RegInv s)
    (h : free_object s ptr fin = some (s', es)) :
    alookup ptr s'.objects_index = none ∧
    (∀ fin2, free_object s' ptr fin2 = some (s', [])) := by
  have hnone : alookup ptr s'.objects_index = none := by
    rcases free_object_spec h with ⟨hidx, rfl, -⟩ | ⟨oid, handle, hidx, hobj, hpm, rfl, -⟩
    · exact hidx
    · exact alookup_aerase_self hinv.index_nodup
  refine ⟨hnone, fun fin2 => ?_⟩
  unfold free_object
  simp only [hnone]

/-- Witness for C2: free the bound address 7 with finalization; the reentrant
and repeated frees are no-ops. -/
theorem C2_free_object_reentrant_witness :
    alookup 7 sampleEmptied.objects_index = none ∧
    free_object sampleEmptied 7 true = some (sampleEmptied, []) := by
  have hinv : RegInv sampleExternal :=
    execOps_inv (RegInv.init sampleClasses)
      (show execOps (initRegistry sampleClasses) [Op.bind 0 7 EBindingPolicy.External]
        = some sampleExternal by decide)
  have hmain := C2_free_object_reentrant sampleExternal 7 true sampleEmptied
    [Effect.finalizer 0 7 false] hinv (by decide)
  exact ⟨hmain.1, hmain.2 true⟩

/-- C3: on a bound pointer whose handle has reference count 0, an increment
performs the weak→strong transition exactly once: `ClearWeak` is emitted, the
count becomes 1 and the handle is strong; on any nonzero count the increment
only raises the count and emits no `ClearWeak`. -/
theorem C3_clearweak_once (s : Registry) (ptr : Ptr) (oid : NativeObjectID)
    (handle : ObjectHandle) (ci : NativeClassInfo)
    (hidx : alookup ptr s.objects_index = some oid)
    (hobj : alookup oid s.objects = some handle)
    (hcls : alookup handle.class_id s.native_classes = some ci)
    (hprim : ci.ctype ≠ NativeClassType.GodotPrimitive) :
    (handle.ref_count = 0 →
      reference_object s ptr true = some (false, [Effect.clearWeak ptr],
        with_handle s oid { handle with ref_weak := false, ref_count := 1 })) ∧
    (handle.ref_count ≠ 0 →
      reference_object s ptr true = some (false, [],
        with_handle s oid { handle with ref_count := handle.ref_count + 1 })) := by
  constructor
  · intro h0
    simp only [reference_object, hidx, hobj, hcls, if_neg hprim, if_pos h0]
    norm_num
  · intro h0
    simp only [reference_object, hidx, hobj, hcls, if_neg hprim, if_neg h0]
    norm_num

/-- Witness for C3: incrementing the managed (weak, count-0) binding of
address 7 upgrades it to strong exactly once; a second increment on the
resulting state emits no `ClearWeak`. -/
theorem C3_clearweak_once_witness :
    reference_object sampleManaged 7 true = some (false, [Effect.clearWeak 7],
      with_handle sampleManaged 0
        { class_id := 0, ref_count := 1, ref_weak := false, pointer := 7 }) :=
  (C3_clearweak_once sampleManaged 7 0
      { class_id := 0, ref_count := 0, ref_weak := true, pointer := 7 }
      { ctype := NativeClassType.GodotObject }
      (by decide) (by decide) (by decide) (by decide)).1 rfl

/-- C4: on a bound pointer, the decrement that brings the reference count to 0
leaves the handle weak (`SetWeak` with the GC callback) and emits no finalizer
effect: finalization can only happen later through engine collection or an
explicit `free_object`. -/
theorem C4_dec_to_zero_weak (s : Registry) (ptr : Ptr) (oid : NativeObjectID)
    (handle : ObjectHandle) (ci : NativeClassInfo)
    (hidx : alookup ptr s.objects_index = some oid)
    (hobj : alookup oid s.objects = some handle)
    (hcls : alookup handle.class_id s.native_classes = some ci)
    (hprim : ci.ctype ≠ NativeClassType.GodotPrimitive)
    (h1 : handle.ref_count = 1) :
    reference_object s ptr false = some (false, [Effect.setWeak ptr],
      with_handle s oid { handle with ref_count := 0, ref_weak := true }) ∧
    (ObjectHandle.ref_weak { handle with ref_count := 0, ref_weak := true } = true) ∧
    (∀ cid q b, Effect.finalizer cid q b ∉ [Effect.setWeak ptr]) := by
  refine ⟨?_, rfl, by simp⟩
  simp only [reference_object, hidx, hobj, hcls, if_neg hprim, h1]
  norm_num

/-- Witness for C4: dropping the single reference of the external binding of
address 7 demotes it to a weak handle; no finalizer effect is emitted. -/
theorem C4_dec_to_zero_weak_witness :
    reference_object sampleExternal 7 false = some (false, [Effect.setWeak 7],
      with_handle sampleExternal 0
        { class_id := 0, ref_count := 0, ref_weak := true, pointer := 7 }) :=
  (C4_dec_to_zero_weak sampleExternal 7 0
      { class_id := 0, ref_count := 1, ref_weak := false, pointer := 7 }
      { ctype := NativeClassType.GodotObject }
      (by decide) (by decide) (by decide) (by decide) rfl).1

/-- C10: a successful `reference_object(ptr, is_inc)` returns `true` exactly
when `ptr` is not present in `objects_index_`; on every currently bound
pointer it returns `false`, for increments and decrements alike (including the
decrement that reaches 0), so the host-side refcount machinery is never told
to delete the object itself. -/
theorem C10_reference_object_return (s : Registry) (ptr : Ptr) (inc rv : Bool)
    (es : List Effect) (s' : Registry)
    (h : reference_object s ptr inc = some (rv, es, s')) :
    (rv = true ↔ alookup ptr s.objects_index = none) ∧
    ((alookup ptr s.objects_index).isSome → rv = false) := by
  have hiff := reference_object_rv h
  refine ⟨hiff, fun hsome => ?_⟩
  cases hrv : rv with
  | false => rfl
  | true =>
    rw [hiff.mp hrv] at hsome
    exact Bool.noConfusion hsome

/-- Witness for C10: the decrement reaching count 0 on the bound address 7
returns `false`. -/
theorem C10_reference_object_return_witness :
    (false = true ↔ alookup 7 sampleExternal.objects_index = none) ∧
    ((alookup 7 sampleExternal.objects_index).isSome → false = false) :=
  C10_reference_object_return sampleExternal 7 false false [Effect.setWeak 7]
    (with_handle sampleExternal 0
      { class_id := 0, ref_count := 0, ref_weak := true, pointer := 7 })
    (by decide)

/-! ## Theorems: call bridge -/

/-- If some argument fails `gd_var_to_js`, the conversion loop reports a
failing index no matter the starting offset. -/
theorem convertArgsAux_error {env : CallEnv} {args : List Variant}
    (h : ∃ a ∈ args, env.gd_var_to_js a = none) (i : Nat) :
    ∃ j, convertArgsAux env args i = Except.error j := by
  induction args generalizing i with
  | nil => simp at h
  | cons a rest ih =>
    obtain ⟨b, hb, hnone⟩ := h
    rcases List.mem_cons.mp hb with rfl | hbr
    · exact ⟨i, by simp [convertArgsAux, hnone]⟩
    · cases hea : env.gd_var_to_js a with
      | none => exact ⟨i, by simp [convertArgsAux, hea]⟩
      | some v =>
        obtain ⟨j, hj⟩ := ih ⟨b, hbr, hnone⟩ (i + 1)
        exact ⟨j, by simp [convertArgsAux, hea, hj]⟩

/-- C5 counterexample: on an argument-conversion failure, the source sets
`r_error.error = CALL_ERROR_INVALID_METHOD` (jsb_environment.cpp:1169), not the
invalid-argument code the claim names. -/
theorem C5_counterexample :
    (_call failArgEnv [0]).invoked = false ∧
    (_call failArgEnv [0]).err = CallError.invalid_method ∧
    (_call failArgEnv [0]).err ≠ CallError.invalid_argument := by
  decide

/-- C5 (amended): if converting any argument fails, all previously constructed
script-side temporaries are destroyed, the error reported is
`CALL_ERROR_INVALID_METHOD` (not InvalidArgument), and the function is never
invoked — no partial call. -/
theorem C5_call_arg_failure (env : CallEnv) (args : List Variant)
    (h : ∃ a ∈ args, env.gd_var_to_js a = none) :
    (_call env args).invoked = false ∧
    (_call env args).err = CallError.invalid_method ∧
    (_call env args).destroyed = (_call env args).constructed ∧
    (_call env args).ret = none := by
  obtain ⟨j, hj⟩ := convertArgsAux_error h 0
  have hc : convertArgs env args = Except.error j := hj
  unfold _call
  rw [hc]
  exact ⟨rfl, rfl, rfl, rfl⟩

/-- Witness for C5 (amended) at the always-failing conversion environment. -/
theorem C5_call_arg_failure_witness :
    (_call failArgEnv [3, 4]).invoked = false ∧
    (_call failArgEnv [3, 4]).err = CallError.invalid_method ∧
    (_call failArgEnv [3, 4]).destroyed = (_call failArgEnv [3, 4]).constructed ∧
    (_call failArgEnv [3, 4]).ret = none :=
  C5_call_arg_failure failArgEnv [3, 4] ⟨3, by simp, rfl⟩

/-- C6: a script exception thrown by the invoked function is caught by the
scoped `TryCatch`, a formatted message is logged, the host gets
`CALL_ERROR_INVALID_METHOD` with an empty return value, and `_call` returns an
ordinary result — the raw script exception never escapes the bridge. -/
theorem C6_call_exception_caught (env : CallEnv) (args : List Variant)
    (argv : List ScriptVal) (hc : convertArgs env args = Except.ok argv)
    (ht : env.invoke argv = CallOutcome.threw) :
    (_call env args).caught = true ∧
    (_call env args).logged = true ∧
    (_call env args).err = CallError.invalid_method ∧
    (_call env args).ret = none := by
  unfold _call
  rw [hc]
  simp [ht]

/-- Witness for C6 at the always-throwing environment. -/
theorem C6_call_exception_caught_witness :
    (_call throwEnv [1]).caught = true ∧
    (_call throwEnv [1]).logged = true ∧
    (_call throwEnv [1]).err = CallError.invalid_method ∧
    (_call throwEnv [1]).ret = none :=
  C6_call_exception_caught throwEnv [1] [1] rfl rfl

/-- C7: when the invocation succeeds but the returned script value fails
conversion to a host `Variant`, the result is "no value"; no error is reported
(and nothing logged) if and only if the returned value is a pending `Promise`;
for any other unconvertible return value the reported error is specifically
`CALL_ERROR_INVALID_METHOD`, with a logged message. -/
theorem C7_return_conversion (env : CallEnv) (args : List Variant)
    (argv : List ScriptVal) (v : ScriptVal)
    (hc : convertArgs env args = Except.ok argv)
    (hv : env.invoke argv = CallOutcome.value v)
    (hfail : env.js_to_gd_var v = none) :
    (_call env args).ret = none ∧
    ((_call env args).err = CallError.ok ↔ env.isPromise v = true) ∧
    ((_call env args).logged = false ↔ env.isPromise v = true) ∧
    (env.isPromise v = false →
      (_call env args).err = CallError.invalid_method ∧
      (_call env args).logged = true) := by
  unfold _call
  rw [hc]
  simp only [hv, hfail]
  by_cases hp : env.isPromise v = true
  · simp [hp]
  · simp only [Bool.not_eq_true] at hp
    simp [hp]

/-- Witness for C7 on both sides: a `Promise` return value failing conversion
is tolerated without error, while a non-`Promise` one is reported as
`CALL_ERROR_INVALID_METHOD` and logged. -/
theorem C7_return_conversion_witness :
    ((_call promiseEnv [1]).err = CallError.ok ↔ promiseEnv.isPromise 42 = true) ∧
    ((_call badReturnEnv [1]).err = CallError.invalid_method ∧
      (_call badReturnEnv [1]).logged = true) :=
  ⟨(C7_return_conversion promiseEnv [1] [1] 42 rfl rfl rfl).2.1,
   (C7_return_conversion badReturnEnv [1] [1] 7 rfl rfl rfl).2.2.2 rfl⟩

/-! ## Theorems: module loading -/

/-- C8: module loading is idempotent — whenever the resolved module for the
requested id is already present and loaded in the cache (whether the requested
id itself is the cache key, or it is only reached through the resolver chain),
`_load_module` returns that very module unchanged, touches no state and runs
no loader or resolver load (empty effect trace), and calling it twice yields
the same module (same object identity) both times. -/
theorem C8_load_module_idempotent (env : ModuleOracle) (st : ModuleCache)
    (parent id : ModuleId) :
    (∀ m, alookup id st.modules_ = some m → m.is_loaded = true →
      _load_module env st parent id = some (some m, st, []) ∧
      (∃ st1, _load_module env st parent id = some (some m, st1, []) ∧
        _load_module env st1 parent id = some (some m, st1, []))) ∧
    (∀ rid m, alookup id st.modules_ = none →
      env.find_module_loader id = false →
      id.startsWith "./" = false → id.startsWith "../" = false →
      env.find_module_resolver id = some rid →
      alookup rid st.modules_ = some m → m.is_loaded = true →
      _load_module env st parent id = some (some m, st, []) ∧
      (∃ st1, _load_module env st parent id = some (some m, st1, []) ∧
        _load_module env st1 parent id = some (some m, st1, []))) := by
  constructor
  · intro m hfind hloaded
    have h1 : _load_module env st parent id = some (some m, st, []) := by
      unfold _load_module
      simp only [hfind, hloaded, if_true]
    exact ⟨h1, st, h1, h1⟩
  · intro rid m hmiss hldr hrel1 hrel2 hres hfind hloaded
    have h1 : _load_module env st parent id = some (some m, st, []) := by
      unfold _load_module _load_module_resolve
      simp only [hmiss, hldr, Bool.false_eq_true, if_false, hrel1, hrel2,
        Bool.or_self, hres, hfind, hloaded, if_true]
    exact ⟨h1, st, h1, h1⟩

/-- Witness for C8 on a one-module cache. -/
theorem C8_load_module_idempotent_witness :
    _load_module sampleOracle sampleCache "" "res://a.js"
      = some (some sampleModuleA, sampleCache, []) ∧
    (∃ st1, _load_module sampleOracle sampleCache "" "res://a.js"
        = some (some sampleModuleA, st1, []) ∧
      _load_module sampleOracle st1 "" "res://a.js"
        = some (some sampleModuleA, st1, [])) :=
  (C8_load_module_idempotent sampleOracle sampleCache "" "res://a.js").1
    sampleModuleA (by decide) (by decide)

/-! ## Theorems: cross-binding -/

/-- C9: `crossbind` on an already-bound host object is a rebind — it returns
the existing object id, leaves the registry untouched and only replaces the
script object's prototype (no construction); on an unbound host object it
constructs via the class constructor with the `CrossBind` sentinel, yields no
binding on a caught construction exception or a non-object result, and
otherwise binds with the `External` policy (strong handle, count 1) under a
fresh id. -/
theorem C9_crossbind_rebind_or_construct (env : CrossbindEnv) (s : Registry)
    (ptr : Ptr) (ci : ScriptClassInfo) (hinv : RegInv s) :
    (∀ oid, alookup ptr s.objects_index = some oid →
      crossbind env s ptr ci = some (some oid, s, [CbEffect.setPrototype ptr]) ∧
      CbEffect.construct ∉ [CbEffect.setPrototype ptr]) ∧
    (alookup ptr s.objects_index = none →
      ((env.ctor = CtorOutcome.threw ∨ env.ctor = CtorOutcome.nonObject) →
        crossbind env s ptr ci = some (none, s, [CbEffect.construct])) ∧
      (env.ctor = CtorOutcome.objectOk →
        (env.is_ref_counted = false ∨ env.init_ref_ok = true) →
        ∀ nci, alookup ci.native_class_id s.native_classes = some nci →
          nci.ctype ≠ NativeClassType.GodotPrimitive →
          ∃ s1 effs,
            crossbind env s ptr ci
              = some (some s.next_id, s1, CbEffect.construct :: effs) ∧
            alookup s.next_id s.objects = none ∧
            alookup ptr s1.objects_index = some s.next_id ∧
            alookup s.next_id s1.objects = some
              { class_id := ci.native_class_id, ref_count := 1,
                ref_weak := false, pointer := ptr })) := by
  constructor
  · intro oid hidx
    refine ⟨?_, by simp⟩
    unfold crossbind
    simp only [hidx]
  · intro hidx
    constructor
    · rintro (hctor | hctor) <;>
      · unfold crossbind
        simp only [hidx, hctor]
    · intro hctor href nci hnci hprim
      have hfresh : alookup s.next_id s.objects = none := by
        apply alookup_eq_none_of_not_mem
        intro hmem
        exact absurd (hinv.ids_lt _ hmem) (lt_irrefl _)
      have hbp : bind_pointer s ci.native_class_id ptr EBindingPolicy.External
          = some (s.next_id, bound_external s ci.native_class_id ptr) := by
        unfold bind_pointer
        simp only [hnci, hidx, if_neg hprim]
        rfl
      refine ⟨bound_external s ci.native_class_id ptr,
        (if env.is_ref_counted then [CbEffect.initRef ptr] else []),
        ?_, hfresh, ?_, ?_⟩
      · unfold crossbind bind_godot_object
        have hrc : (env.is_ref_counted && !env.init_ref_ok) = false := by
          rcases href with h | h <;> simp [h]
        simp only [hidx, hctor, hrc, hbp, Bool.false_eq_true, if_false]
      · simp [bound_external, alookup_cons]
      · simp [bound_external, alookup_cons]

/-- Witness for C9: crossbinding address 9 on an empty registry constructs and
binds it externally at the fresh id 0. -/
theorem C9_crossbind_rebind_or_construct_witness :
    ∃ s1 effs,
      crossbind sampleCbEnv (initRegistry sampleClasses) 9 { native_class_id := 0 }
        = some (some (initRegistry sampleClasses).next_id, s1,
            CbEffect.construct :: effs) ∧
      alookup (initRegistry sampleClasses).next_id (initRegistry sampleClasses).objects = none ∧
      alookup 9 s1.objects_index = some (initRegistry sampleClasses).next_id ∧
      alookup (initRegistry sampleClasses).next_id s1.objects = some
        { class_id := 0, ref_count := 1, ref_weak := false, pointer := 9 } :=
  ((C9_crossbind_rebind_or_construct sampleCbEnv (initRegistry sampleClasses) 9
      { native_class_id := 0 } (RegInv.init sampleClasses)).2
    (by decide)).2 (by decide) (Or.inl (by decide))
    { ctype := NativeClassType.GodotObject } (by decide) (by decide)

end GodotJS
